import Mathlib

/-!
Verification of the google-photo-uploader repository.

Shallow embedding of the decision logic of three source files:
`google_photos.py` (retry wrapper, album listing and creation, two-phase
image upload), `camera_module.py` (photo capture, fourcc decoding) and
`main.py` (scheduler camera job with its authentication-failure
escalation path).  External collaborators (the remote Photos service,
the camera hardware, the filesystem, the AWS notifier) are modelled as
explicit oracle inputs; each Lean definition mirrors the control flow of
the Python function it embeds.
-/

deriving instance DecidableEq for Except

namespace GPU

/-! ### Python substring containment (the `in` operator on strings) -/

/-- Boolean list-prefix test, mirroring how Python substring search
compares the needle against the front of the remaining haystack. -/
def leadsWith : List Char → List Char → Bool
  | [], _ => true
  | _ :: _, [] => false
  | a :: as, b :: bs => a == b && leadsWith as bs

/-- Does the needle occur as a contiguous run inside the haystack? -/
def occursInList (n : List Char) : List Char → Bool
  | [] => leadsWith n []
  | b :: bs => leadsWith n (b :: bs) || occursInList n bs

/-- Embedding of the Python expression `needle in hay` on strings. -/
def occursIn (needle hay : String) : Bool :=
  occursInList needle.toList hay.toList

/-! ### `GooglePhotos._execute_api` (google_photos.py lines 98-125)

The Python callback is modelled as an oracle `f : Nat → Attempt α`
giving, for each loop index `i`, what the call does on that attempt:
return a value or raise an exception with a message string. -/

/-- Outcome of one invocation of the wrapped remote call. -/
inductive Attempt (α : Type) where
  | ok (v : α)
  | err (msg : String)
deriving DecidableEq

/-- `MAX_API_RETRY = 3` (google_photos.py line 58). -/
def MAX_API_RETRY : Nat := 3

/-- Seconds slept by `time.sleep(3)` between retryable failures. -/
def RETRY_SLEEP : Nat := 3

/-- The marker classification on line 116 of google_photos.py:
`"invalid_grant" in s or "expired" in s or "revoked" in s`. -/
def isAuthError (m : String) : Bool :=
  occursIn "invalid_grant" m || occursIn "expired" m || occursIn "revoked" m

/-- Result of the retry wrapper: the Python value returned (`none`
models the `return None` of the for-else arm), or a raised exception,
together with how many attempts ran and the total seconds slept. -/
structure ExecOut (α : Type) where
  result : Except String (Option α)
  attempts : Nat
  sleepSeconds : Nat
deriving DecidableEq

/-- The `for i in range(MAX_API_RETRY)` loop of `_execute_api`.
`fuel` is the number of remaining iterations, `i` the current loop
index, `s` the seconds slept so far.  On an exception the marker test
re-raises; otherwise the loop sleeps 3 seconds when `i < MAX_API_RETRY - 1`
and moves on; the for-else arm returns `None` when the range runs out. -/
def execLoop (f : Nat → Attempt α) (fuel i s : Nat) : ExecOut α :=
  if _hfuel : fuel = 0 then ⟨.ok none, i, s⟩
  else
    match f i with
    | .ok v => ⟨.ok (some v), i + 1, s⟩
    | .err m =>
      if isAuthError m then ⟨.error m, i + 1, s⟩
      else execLoop f (fuel - 1) (i + 1)
        (if i < MAX_API_RETRY - 1 then s + RETRY_SLEEP else s)
termination_by fuel
decreasing_by omega

/-- Embedding of `GooglePhotos._execute_api`. -/
def execute_api (f : Nat → Attempt α) : ExecOut α :=
  execLoop f MAX_API_RETRY 0 0

/-! ### Exception messages raised by CPython when a `None` response or a
missing key is dereferenced -/

/-- Message of the `TypeError` CPython raises for `"k" in None`. -/
def tyErrMsg : String := "TypeError: argument of type NoneType is not iterable"

/-- Message of the `AttributeError` CPython raises for `None.status_code`. -/
def attrErrMsg : String := "AttributeError: NoneType object has no attribute status_code"

/-- Message of the `KeyError` CPython raises for a missing dict key. -/
def keyErrMsg (k : String) : String := "KeyError: " ++ k

/-- Message of the `IndexError` CPython raises for `[][0]`. -/
def idxErrMsg : String := "IndexError: list index out of range"

/-! ### `GooglePhotos.create_album` (google_photos.py lines 127-143) -/

/-- The JSON dict answered by the albums-create endpoint: which of the
`id` and `title` keys are present, and their values. -/
structure CreateResponse where
  id : Option String
  title : Option String
deriving DecidableEq

/-- Embedding of `GooglePhotos.create_album`, parametrised by the oracle
`f` describing the attempts of the wrapped `albums().create(...).execute`
call.  When `_execute_api` returns `None` (retry exhaustion) the
membership test `"id" not in response` raises a `TypeError`; when the
`id` key is absent the success-log f-string `response["id"]` raises a
`KeyError` (the preceding error log does not return); likewise for
`title`.  Otherwise the `id` value is returned. -/
def create_album (f : Nat → Attempt CreateResponse) : Except String String :=
  match (execute_api f).result with
  | .error m => .error m
  | .ok none => .error tyErrMsg
  | .ok (some r) =>
    match r.id with
    | none => .error (keyErrMsg "id")
    | some i =>
      match r.title with
      | none => .error (keyErrMsg "title")
      | some _ => .ok i

/-! ### `GooglePhotos.get_album_list` (google_photos.py lines 145-165) -/

/-- An album resource as listed by the service. -/
structure Album where
  id : String
  title : String
deriving DecidableEq

/-- The JSON dict answered by one albums-list page: whether the `albums`
key is present (with its items) and whether `nextPageToken` is present. -/
structure PageResponse where
  albums : Option (List Album)
  nextPageToken : Option String
deriving DecidableEq

/-- How a run of `get_album_list` ends: a normal return with the
accumulated list, a raised exception, or exhaustion of the scripted
page oracles (the Python loop would keep calling the service).
Each constructor records how many list calls were made. -/
inductive ListOutcome where
  | ret (albums : List Album) (callsMade : Nat)
  | raise (msg : String) (callsMade : Nat)
  | outOfPages (albumsSoFar : List Album) (callsMade : Nat)
deriving DecidableEq

/-- The `while True` loop of `get_album_list`.  `calls` scripts, for each
successive `albums().list` invocation, the attempt oracle handed to
`_execute_api`.  A `None` response makes `"albums" not in response`
raise a `TypeError`; a response without `albums` breaks before
accumulating; after accumulating, a response without `nextPageToken`
breaks; otherwise the token is carried into the next call. -/
def galLoop (acc : List Album) (made : Nat) :
    List (Nat → Attempt PageResponse) → ListOutcome
  | [] => .outOfPages acc made
  | c :: rest =>
    match (execute_api c).result with
    | .error m => .raise m (made + 1)
    | .ok none => .raise tyErrMsg (made + 1)
    | .ok (some p) =>
      match p.albums with
      | none => .ret acc (made + 1)
      | some items =>
        match p.nextPageToken with
        | none => .ret (acc ++ items) (made + 1)
        | some _ => galLoop (acc ++ items) (made + 1) rest

/-- Embedding of `GooglePhotos.get_album_list`. -/
def get_album_list (calls : List (Nat → Attempt PageResponse)) : ListOutcome :=
  galLoop [] 0 calls

/-! ### `GooglePhotos.get_album` (google_photos.py lines 167-181) -/

/-- Embedding of the lookup loop of `GooglePhotos.get_album` over the
list returned by `get_album_list`: return the first album whose `title`
equals the requested title, else `None`. -/
def get_album (album_list : List Album) (album_title : String) : Option Album :=
  match album_list with
  | [] => none
  | a :: rest => if album_title == a.title then some a else get_album rest album_title

/-! ### `GooglePhotos.upload_image` (google_photos.py lines 183-228) -/

/-- The `requests` response of the phase-1 raw-byte upload: HTTP status
code and decoded body (the upload token). -/
structure Phase1Resp where
  status_code : Nat
  content : String
deriving DecidableEq

/-- The JSON dict answered by the phase-2 `mediaItems().batchCreate`
call: whether `newMediaItemResults` is present, and the `status` fields
of its entries. -/
structure Phase2Resp where
  newMediaItemResults : Option (List String)
deriving DecidableEq

/-- Result of `upload_image` together with the number of remote calls
(`_execute_api` invocations) that were made. -/
structure UploadOut where
  result : Except String Bool
  networkCalls : Nat
deriving DecidableEq

/-- Embedding of `GooglePhotos.upload_image`.  `fileExists` is the
outcome of `os.path.isfile(image_path)`; `f1` and `f2` are the attempt
oracles of the phase-1 `requests.post` and the phase-2 `batchCreate`
calls.  A missing file returns `False` before any remote call
(`requests.codes.ok` is 200); a `None` phase-1 response makes
`.status_code` raise an `AttributeError`; a non-200 status returns
`False`; a `None` phase-2 response makes the membership test raise a
`TypeError`; a response without `newMediaItemResults` returns `False`;
an empty result list makes `[0]` raise an `IndexError`; otherwise the
status is logged and `True` is returned. -/
def upload_image (fileExists : Bool) (f1 : Nat → Attempt Phase1Resp)
    (f2 : Nat → Attempt Phase2Resp) : UploadOut :=
  if fileExists = false then ⟨.ok false, 0⟩
  else
    match (execute_api f1).result with
    | .error m => ⟨.error m, 1⟩
    | .ok none => ⟨.error attrErrMsg, 1⟩
    | .ok (some r1) =>
      if r1.status_code ≠ 200 then ⟨.ok false, 1⟩
      else
        match (execute_api f2).result with
        | .error m => ⟨.error m, 2⟩
        | .ok none => ⟨.error tyErrMsg, 2⟩
        | .ok (some r2) =>
          match r2.newMediaItemResults with
          | none => ⟨.ok false, 2⟩
          | some [] => ⟨.error idxErrMsg, 2⟩
          | some (_ :: _) => ⟨.ok true, 2⟩

/-! ### Album resolution state (`Scheduler._get_album_id`, main.py
lines 117-133)

The remote album store is modelled as the list of albums the service
would answer in a listing, plus a counter for fresh ids.  The state
transition of a successful `albums().create` call appends the new album
(this is the documented Photos API behaviour the client relies on:
app-created albums appear in subsequent listings). -/

/-- Remote album store: listing order and a fresh-id counter. -/
structure RemoteState where
  albums : List Album
  nextId : Nat
deriving DecidableEq

/-- Effect of a successful album creation on the remote store: a fresh
id is assigned and the album becomes visible at the end of listings. -/
def create_album_remote (s : RemoteState) (t : String) : String × RemoteState :=
  let i := "album_" ++ toString s.nextId
  (i, ⟨s.albums ++ [⟨i, t⟩], s.nextId + 1⟩)

/-- Embedding of `Scheduler._get_album_id` on the happy path (every
remote call answers): look the title up in the listing; reuse the id of
the first exact-title match, else create a new album and return its id. -/
def get_album_id (s : RemoteState) (googleUse : Bool) (t : String) :
    Option String × RemoteState :=
  if googleUse = false then (none, s)
  else
    match get_album s.albums t with
    | some a => (some a.id, s)
    | none =>
      let r := create_album_remote s t
      (some r.1, r.2)

/-! ### `CameraModule.save_photo` (camera_module.py lines 65-143) -/

/-- The camera hardware as the capture call observes it: does
`cap.isOpened()` hold, does `cap.read()` yield a frame, does
`cv2.imwrite` succeed. -/
structure DeviceState where
  opens : Bool
  frameOk : Bool
  writeOk : Bool
deriving DecidableEq

/-- What a `save_photo` call did: its boolean result, whether
`cap.release()` was executed before returning, and whether the image
file was written. -/
structure SaveOut where
  result : Bool
  released : Bool
  fileWritten : Bool
deriving DecidableEq

/-- Embedding of `CameraModule.save_photo`.  The settings application is
best-effort and does not affect control flow.  When `cap.isOpened()` is
false the function returns `False` at line 121 without releasing; when
`cap.read()` yields no frame it returns `False` at line 127 without
releasing; otherwise the frame is annotated and written (`cv2.imwrite`
returning the final result), and `cap.release()` runs before returning. -/
def save_photo (d : DeviceState) : SaveOut :=
  if d.opens = false then ⟨false, false, false⟩
  else if d.frameOk = false then ⟨false, false, false⟩
  else ⟨d.writeOk, true, d.writeOk⟩

/-! ### `CameraModule.decode_fourcc` (camera_module.py lines 52-63) -/

/-- Embedding of `CameraModule.decode_fourcc`: the join of
`chr((v >> 8 * i) & 0xFF)` for `i` in `range(4)`. -/
def decode_fourcc (v : Nat) : String :=
  String.mk ((List.range 4).map (fun i => Char.ofNat ((v >>> (8 * i)) &&& 0xFF)))

/-- Little-endian 4-byte packing of a 4-character string: the inverse
construction named by the round-trip property (byte `i` of the result
is the character code of character `i`). -/
def pack_fourcc (s : String) : Nat :=
  match s.toList with
  | [c0, c1, c2, c3] =>
    c0.toNat + 256 * c1.toNat + 256 ^ 2 * c2.toNat + 256 ^ 3 * c3.toNat
  | _ => 0

/-! ### `Scheduler.camera_job` (main.py lines 88-115) and
`Scheduler._send_auth_error_notification` (main.py lines 135-181) -/

/-- Inputs of one `camera_job` execution: the two use flags, the outcome
of `save_photo`, the outcome of the try block body (`_get_album_id`
followed by `upload_image`; `.error m` models an exception with message
`m` raised by either), whether the `notifications.aws_sns` use flag is
set, and whether the `boto3` import succeeded. -/
structure JobEnv where
  cameraUse : Bool
  googleUse : Bool
  captureOk : Bool
  uploadOutcome : Except String Bool
  snsUse : Bool
  boto3Present : Bool
deriving DecidableEq

/-- Observable outcome of one `camera_job` execution: whether the
captured image file is still on disk afterwards, whether the SNS
publish call was reached, and the process exit status (`none` means the
job returned and the process keeps running). -/
structure JobOutcome where
  fileOnDisk : Bool
  notifierInvoked : Bool
  exitCode : Option Nat
deriving DecidableEq

/-- Embedding of `Scheduler._send_auth_error_notification`: without the
SNS use flag it logs and exits 1; with the flag but without `boto3` it
logs and exits 1; otherwise it reaches `sns.publish` (any exception in
the try block is caught) and then exits 1.  Returns (publish reached,
exit code). -/
def send_auth_error_alert (snsUse boto3Present : Bool) : Bool × Option Nat :=
  if snsUse = false then (false, some 1)
  else if boto3Present = false then (false, some 1)
  else (true, some 1)

/-- Does the scheduler treat the raised message as an authentication
error?  Line 106 of main.py tests only `"invalid_grant" in str(e) or
"expired" in str(e)`. -/
def jobAuthCheck (m : String) : Bool :=
  occursIn "invalid_grant" m || occursIn "expired" m

/-- Embedding of `Scheduler.camera_job`.  Without the camera use flag
the job returns at once; a failed capture returns before upload; with
upload disabled the file is retained; a normal upload outcome (either
boolean) reaches `os.remove`; a raised exception matching
`jobAuthCheck` leaves the file, runs the notifier path and exits 1; any
other exception deletes the file in the `else` arm. -/
def camera_job (env : JobEnv) : JobOutcome :=
  if env.cameraUse = false then ⟨false, false, none⟩
  else if env.captureOk = false then ⟨false, false, none⟩
  else if env.googleUse = false then ⟨true, false, none⟩
  else
    match env.uploadOutcome with
    | .ok _ => ⟨false, false, none⟩
    | .error m =>
      if jobAuthCheck m then
        let r := send_auth_error_alert env.snsUse env.boto3Present
        ⟨true, r.1, r.2⟩
      else ⟨false, false, none⟩

/-- Did the try block of `camera_job` raise an exception the spec calls
an unrecoverable authentication failure (any of the three markers)? -/
def uploadRaisedAuthError : Except String Bool → Bool
  | .ok _ => false
  | .error m => isAuthError m

/-- An attempt oracle for a remote call that answers `q` on every
attempt (a healthy service). -/
def pureOracle (q : PageResponse) : Nat → Attempt PageResponse := fun _ => .ok q

/-- `n` distinct albums with ids and titles derived from `base`, used to
build concrete listing pages. -/
def mkAlbums (base n : Nat) : List Album :=
  (List.range n).map (fun k => ⟨"id" ++ toString (base + k), "t" ++ toString (base + k)⟩)

/-! ### Helper lemmas on the retry loop -/

lemma execLoop_attempts_le (f : Nat → Attempt α) :
    ∀ fuel i s, (execLoop f fuel i s).attempts ≤ i + fuel := by
  intro fuel
  induction fuel using Nat.strong_induction_on with
  | _ fuel ih =>
    intro i s
    rw [execLoop]
    split
    · simp
    · cases hf : f i with
      | ok v => simp; omega
      | err m =>
        simp only [hf]
        split
        · simp; omega
        · have h := ih (fuel - 1) (by omega) (i + 1)
            (if i < MAX_API_RETRY - 1 then s + RETRY_SLEEP else s)
          omega

/-- A call that answers on its first attempt passes straight through
the retry wrapper. -/
lemma execute_api_const_ok (p : α) :
    execute_api (fun _ => Attempt.ok p) = ⟨.ok (some p), 1, 0⟩ := by
  simp [execute_api, MAX_API_RETRY, execLoop]

/-- A call whose first attempt returns passes straight through the
retry wrapper. -/
lemma execute_api_first_ok (f : Nat → Attempt α) (v : α) (h : f 0 = .ok v) :
    execute_api f = ⟨.ok (some v), 1, 0⟩ := by
  simp [execute_api, MAX_API_RETRY, execLoop, h]

/-- A call failing transiently on all three attempts makes the retry
wrapper return `None` after two 3-second sleeps. -/
lemma execute_api_exhausted (f : Nat → Attempt α)
    (hall : ∀ k, k < MAX_API_RETRY → ∃ mk, f k = .err mk ∧ isAuthError mk = false) :
    execute_api f = ⟨.ok none, 3, 6⟩ := by
  obtain ⟨m0, h0, a0⟩ := hall 0 (by decide)
  obtain ⟨m1, h1, a1⟩ := hall 1 (by decide)
  obtain ⟨m2, h2, a2⟩ := hall 2 (by decide)
  simp [execute_api, MAX_API_RETRY, RETRY_SLEEP, execLoop, h0, a0, h1, a1, h2, a2]

/-! ### Helper lemmas on album lookup -/

lemma get_album_eq_none_iff (l : List Album) (t : String) :
    get_album l t = none ↔ ∀ a ∈ l, a.title ≠ t := by
  induction l with
  | nil => simp [get_album]
  | cons a rest ih =>
    rcases hba : (t == a.title) with _ | _
    · have hne : a.title ≠ t := by
        intro h
        rw [h] at hba
        simp at hba
      simp [get_album, hba, ih, hne]
    · have heq : t = a.title := by simpa using hba
      simp only [get_album, hba, if_pos rfl]
      simp only [if_true]
      constructor
      · intro h
        exact absurd h (by simp)
      · intro hall
        exact absurd heq.symm (hall a (by simp))

lemma get_album_append_last (l : List Album) (x : Album) (t : String)
    (h : ∀ a ∈ l, a.title ≠ t) (hx : x.title = t) :
    get_album (l ++ [x]) t = some x := by
  induction l with
  | nil => simp [get_album, hx]
  | cons a rest ih =>
    have hne : a.title ≠ t := h a (by simp)
    have hba : (t == a.title) = false := by
      simp only [beq_eq_false_iff_ne]
      exact fun hc => hne hc.symm
    simpa [get_album, hba] using ih (fun b hb => h b (by simp [hb]))

/-! ### Helper lemma on the pagination loop -/

/-- A healthy-service oracle passes its page through the retry wrapper. -/
lemma execute_api_pureOracle (p : PageResponse) :
    execute_api (pureOracle p) = ⟨.ok (some p), 1, 0⟩ := by
  simp [pureOracle, execute_api, MAX_API_RETRY, execLoop]

/-- Behaviour of the listing loop over a healthy service: full pages
(albums and token present) are accumulated and followed; the loop stops
at the first page that lacks the `albums` key or lacks the
`nextPageToken` key, accumulating its albums when present. -/
lemma galLoop_pure (p : PageResponse) (rest : List PageResponse)
    (hstop : p.albums = none ∨ p.nextPageToken = none) :
    ∀ (front : List PageResponse),
      (∀ q ∈ front, q.albums.isSome = true ∧ q.nextPageToken.isSome = true) →
      ∀ (acc : List Album) (made : Nat),
        galLoop acc made ((front ++ p :: rest).map pureOracle) =
          .ret (acc ++ (front.map (fun q => q.albums.getD [])).flatten ++ p.albums.getD [])
            (made + front.length + 1) := by
  intro front
  induction front with
  | nil =>
    intro _ acc made
    rcases hstop with h | h
    · simp [galLoop, execute_api_pureOracle, h]
    · cases hp : p.albums with
      | none => simp [galLoop, execute_api_pureOracle, hp]
      | some items => simp [galLoop, execute_api_pureOracle, hp, h]
  | cons q qs ih =>
    intro hfront acc made
    obtain ⟨hq, ht⟩ := hfront q (by simp)
    obtain ⟨lq, hlq⟩ := Option.isSome_iff_exists.mp hq
    obtain ⟨tq, htq⟩ := Option.isSome_iff_exists.mp ht
    have ih2 := ih (fun r hr => hfront r (by simp [hr])) (acc ++ lq) (made + 1)
    simp only [List.map_append, List.map_cons] at ih2
    simp only [List.cons_append, List.map_cons, List.map_append, galLoop,
      execute_api_pureOracle, hlq, htq]
    simpa [List.append_assoc, Nat.add_assoc, Nat.add_comm, Nat.add_left_comm] using ih2

/-! ### Helper lemmas on characters and byte extraction -/

lemma char_ofNat_toNat_of_lt (n : Nat) (h : n < 55296) : (Char.ofNat n).toNat = n := by
  rw [Char.ofNat, dif_pos (Or.inl h)]
  rfl

lemma byte_char (v k : Nat) :
    (Char.ofNat ((v >>> k) &&& 255)).toNat = v / 2 ^ k % 256 := by
  have h1 : (v >>> k) &&& 255 = v / 2 ^ k % 256 := by
    rw [Nat.shiftRight_eq_div_pow, show (255 : Nat) = 2 ^ 8 - 1 from rfl,
      Nat.and_pow_two_sub_one_eq_mod]
  rw [h1]
  exact char_ofNat_toNat_of_lt _ (by omega)

lemma exists_four_of_length_eq {α : Type} {l : List α} (h : l.length = 4) :
    ∃ a b c d, l = [a, b, c, d] := by
  rcases l with _ | ⟨a, l⟩
  · simp at h
  rcases l with _ | ⟨b, l⟩
  · simp at h
  rcases l with _ | ⟨c, l⟩
  · simp at h
  rcases l with _ | ⟨d, l⟩
  · simp at h
  rcases l with _ | ⟨e, l⟩
  · exact ⟨a, b, c, d, rfl⟩
  · simp at h

end GPU

namespace GPU

/-! ### Claim theorems -/

/-- C2: for every exception raised inside the retry wrapper whose
message contains "invalid_grant", "expired", or "revoked", the wrapper
re-raises that exception on its first occurrence: no further attempt is
made (the attempt it was raised on is the last one) and the backoff
sleep is never invoked for it (the seconds slept are exactly those of
the earlier transient failures). -/
theorem C2_theorem {α : Type} (f : Nat → Attempt α) (j : Nat) (m : String)
    (hj : j < MAX_API_RETRY)
    (hprior : ∀ k, k < j → ∃ mk, f k = .err mk ∧ isAuthError mk = false)
    (hfj : f j = .err m) (hauth : isAuthError m = true) :
    execute_api f = ⟨.error m, j + 1, j * RETRY_SLEEP⟩ := by
  have hj3 : j < 3 := hj
  interval_cases j
  · simp [execute_api, MAX_API_RETRY, execLoop, hfj, hauth]
  · obtain ⟨m0, h0, a0⟩ := hprior 0 (by omega)
    simp [execute_api, MAX_API_RETRY, RETRY_SLEEP, execLoop, h0, a0, hfj, hauth]
  · obtain ⟨m0, h0, a0⟩ := hprior 0 (by omega)
    obtain ⟨m1, h1, a1⟩ := hprior 1 (by omega)
    simp [execute_api, MAX_API_RETRY, RETRY_SLEEP, execLoop, h0, a0, h1, a1, hfj, hauth]

theorem C2_witness :
    execute_api (fun _ => Attempt.err (α := Nat) "expired") =
      ⟨Except.error "expired", 1, 0⟩ := by
  have h := C2_theorem (fun _ => Attempt.err (α := Nat) "expired") 0 "expired"
    (by decide) (fun k hk => absurd hk (by omega)) rfl (by decide)
  simpa using h

/-- C5: the retry wrapper makes at most 3 attempts; a normally returning
attempt (after only transient failures) yields that result with no
further attempts, each earlier failure having cost one fixed 3-second
backoff sleep; after 3 transient failures it returns an absent result
(`None`) instead of raising, having slept only between attempts. -/
theorem C5_theorem {α : Type} (f : Nat → Attempt α) :
    (execute_api f).attempts ≤ MAX_API_RETRY
    ∧ (∀ j v, j < MAX_API_RETRY →
        (∀ k, k < j → ∃ mk, f k = .err mk ∧ isAuthError mk = false) →
        f j = .ok v → execute_api f = ⟨.ok (some v), j + 1, j * RETRY_SLEEP⟩)
    ∧ ((∀ k, k < MAX_API_RETRY → ∃ mk, f k = .err mk ∧ isAuthError mk = false) →
        execute_api f = ⟨.ok none, MAX_API_RETRY, (MAX_API_RETRY - 1) * RETRY_SLEEP⟩) := by
  refine ⟨execLoop_attempts_le f MAX_API_RETRY 0 0, ?_, ?_⟩
  · intro j v hj hprior hfj
    have hj3 : j < 3 := hj
    interval_cases j
    · simp [execute_api, MAX_API_RETRY, execLoop, hfj]
    · obtain ⟨m0, h0, a0⟩ := hprior 0 (by omega)
      simp [execute_api, MAX_API_RETRY, RETRY_SLEEP, execLoop, h0, a0, hfj]
    · obtain ⟨m0, h0, a0⟩ := hprior 0 (by omega)
      obtain ⟨m1, h1, a1⟩ := hprior 1 (by omega)
      simp [execute_api, MAX_API_RETRY, RETRY_SLEEP, execLoop, h0, a0, h1, a1, hfj]
  · intro hall
    obtain ⟨m0, h0, a0⟩ := hall 0 (by decide)
    obtain ⟨m1, h1, a1⟩ := hall 1 (by decide)
    obtain ⟨m2, h2, a2⟩ := hall 2 (by decide)
    simp [execute_api, MAX_API_RETRY, RETRY_SLEEP, execLoop, h0, a0, h1, a1, h2, a2]

theorem C5_witness :
    execute_api (fun i => if i < 2 then Attempt.err (α := Nat) "503 Service Unavailable"
        else Attempt.ok 7) =
      ⟨Except.ok (some 7), 3, 6⟩ := by
  have h := (C5_theorem (fun i => if i < 2 then Attempt.err (α := Nat) "503 Service Unavailable"
      else Attempt.ok 7)).2.1 2 7 (by decide)
    (fun k hk => ⟨"503 Service Unavailable", by simp [hk], by decide⟩) (by simp)
  simpa using h

/-- C1 counterexample: an upload exception whose message contains the
invalidation marker "revoked" (but neither "invalid_grant" nor
"expired") is an unrecoverable authentication failure by the claimed
marker set (`isAuthError` holds), yet `camera_job` deletes the local
file, never invokes the notifier and does not terminate the process:
the scheduler check on main.py line 106 tests only "invalid_grant" and
"expired". -/
theorem C1_counterexample :
    isAuthError "Token has been revoked" = true
    ∧ camera_job ⟨true, true, true, .error "Token has been revoked", true, true⟩ =
        ⟨false, false, none⟩ := by
  decide

/-- C1 amended: for every job execution in which capture succeeds,
upload is enabled, and the upload step raises an exception whose
message contains "invalid_grant" or "expired" (the two markers the
scheduler actually tests; "revoked" is not among them), the local image
file is left on disk, the external notifier is invoked exactly when it
is configured (SNS use flag set and boto3 importable), and the process
terminates with exit status 1; when no notification channel is
configured the path still terminates with the same status 1. -/
theorem C1_theorem (env : JobEnv) (m : String) (hc : env.cameraUse = true)
    (hk : env.captureOk = true) (hg : env.googleUse = true)
    (hu : env.uploadOutcome = .error m)
    (hm : occursIn "invalid_grant" m = true ∨ occursIn "expired" m = true) :
    (camera_job env).fileOnDisk = true
    ∧ (camera_job env).exitCode = some 1
    ∧ (camera_job env).notifierInvoked = (env.snsUse && env.boto3Present) := by
  have hj : jobAuthCheck m = true := by
    rcases hm with h | h <;> simp [jobAuthCheck, h]
  cases hs : env.snsUse <;> cases hb : env.boto3Present <;>
    simp [camera_job, hc, hk, hg, hu, hj, hs, hb, send_auth_error_alert]

theorem C1_witness :
    (camera_job ⟨true, true, true,
        .error "invalid_grant: Token has been expired or revoked.", false, false⟩).fileOnDisk = true
    ∧ (camera_job ⟨true, true, true,
        .error "invalid_grant: Token has been expired or revoked.", false, false⟩).exitCode = some 1
    ∧ (camera_job ⟨true, true, true,
        .error "invalid_grant: Token has been expired or revoked.", false, false⟩).notifierInvoked =
        (false && false) := by
  exact C1_theorem ⟨true, true, true,
      .error "invalid_grant: Token has been expired or revoked.", false, false⟩
    "invalid_grant: Token has been expired or revoked." rfl rfl rfl rfl
    (Or.inl (by decide))

/-- C3: evaluation of `save_photo` on each path.  When the device
cannot be opened and when no frame can be read, the function returns
`False` without having executed `cap.release()` (the claimed
unconditional release does not happen); only the paths that reach the
write release the handle. -/
theorem C3_theorem :
    save_photo ⟨false, true, true⟩ = ⟨false, false, false⟩
    ∧ save_photo ⟨true, false, true⟩ = ⟨false, false, false⟩
    ∧ save_photo ⟨true, true, false⟩ = ⟨false, true, false⟩
    ∧ save_photo ⟨true, true, true⟩ = ⟨true, true, true⟩ := by
  decide

/-- C4: evaluation at the failing input (every attempt failing with a
transient error).  The retry wrapper itself returns the absent result
`None` without raising, but the wrapping operations then dereference
the absent response and raise: `create_album` raises a `TypeError` at
its membership test, `get_album_list` raises a `TypeError` at its
membership test, and `upload_image` raises an `AttributeError` at
`.status_code` — none of them surfaces an absent result to its caller. -/
theorem C4_theorem :
    (execute_api (fun _ => Attempt.err (α := CreateResponse) "ConnectionError")).result
        = .ok none
    ∧ create_album (fun _ => Attempt.err "ConnectionError") = .error tyErrMsg
    ∧ get_album_list [fun _ => Attempt.err "ConnectionError"] = .raise tyErrMsg 1
    ∧ upload_image true (fun _ => Attempt.err "ConnectionError")
        (fun _ => Attempt.ok ⟨some ["OK"]⟩) = ⟨.error attrErrMsg, 1⟩ := by
  have hex : ∀ {β : Type}, execute_api (fun _ => Attempt.err (α := β) "ConnectionError") =
      ⟨.ok none, 3, 6⟩ := by
    intro β
    exact execute_api_exhausted _ (fun k _ => ⟨"ConnectionError", rfl, by decide⟩)
  refine ⟨by rw [hex], ?_, ?_, ?_⟩
  · simp [create_album, hex]
  · simp [get_album_list, galLoop, hex]
  · simp [upload_image, hex]

/-- C8: for every job execution in which capture succeeds and upload is
enabled, if the upload step does not raise an unrecoverable
authentication failure — whether it returns a boolean result or raises
a non-authentication exception — the local image file is deleted and is
absent afterwards. -/
theorem C8_theorem (env : JobEnv) (hc : env.cameraUse = true)
    (hk : env.captureOk = true) (hg : env.googleUse = true)
    (hna : uploadRaisedAuthError env.uploadOutcome = false) :
    (camera_job env).fileOnDisk = false := by
  cases henv : env.uploadOutcome with
  | ok b => simp [camera_job, hc, hk, hg, henv]
  | error m =>
    rw [henv] at hna
    have hna2 : isAuthError m = false := hna
    have h3 : occursIn "invalid_grant" m = false ∧ occursIn "expired" m = false := by
      simp [isAuthError] at hna2
      exact ⟨hna2.1.1, hna2.1.2⟩
    have hj : jobAuthCheck m = false := by simp [jobAuthCheck, h3.1, h3.2]
    simp [camera_job, hc, hk, hg, henv, hj]

theorem C8_witness :
    (camera_job ⟨true, true, true, .error "HttpError 503 Service Unavailable",
        true, true⟩).fileOnDisk = false := by
  exact C8_theorem ⟨true, true, true, .error "HttpError 503 Service Unavailable", true, true⟩
    rfl rfl rfl (by decide)

/-- C6 counterexample: a first page response that omits the `albums`
field but carries a next-page token makes `get_album_list` terminate at
that very response (returning the empty accumulation after one call and
never visiting the scripted second page), although the response does
not omit both fields — refuting that the listing terminates only when a
response omits both the `albums` field and the next-page token. -/
theorem C6_counterexample :
    get_album_list [pureOracle ⟨none, some "token2"⟩,
        pureOracle ⟨some [⟨"id1", "t1"⟩], none⟩] = .ret [] 1
    ∧ (⟨none, some "token2"⟩ : PageResponse).nextPageToken ≠ none := by
  constructor
  · simp [get_album_list, galLoop, execute_api_pureOracle]
  · simp

/-- C6 amended: album listing follows the page-token cursor and returns
the concatenation of the album items of the pages it accumulates,
terminating at the first response that omits the `albums` field
(regardless of any next-page token) or that, after its albums are
accumulated, omits the next-page token; in particular, given 3 pages of
50, 50, and 10 albums, it returns all 110 items and stops after the
page lacking a next-page token. -/
theorem C6_theorem (front : List PageResponse) (p : PageResponse)
    (rest : List PageResponse)
    (hfront : ∀ q ∈ front, q.albums.isSome = true ∧ q.nextPageToken.isSome = true)
    (hstop : p.albums = none ∨ p.nextPageToken = none) :
    get_album_list ((front ++ p :: rest).map pureOracle) =
      .ret ((front.map (fun q => q.albums.getD [])).flatten ++ p.albums.getD [])
        (front.length + 1) := by
  have h := galLoop_pure p rest hstop front hfront [] 0
  simpa [get_album_list] using h

theorem C6_witness :
    get_album_list ([⟨some (mkAlbums 0 50), some "tok1"⟩,
        ⟨some (mkAlbums 50 50), some "tok2"⟩,
        (⟨some (mkAlbums 100 10), none⟩ : PageResponse)].map pureOracle) =
      .ret (mkAlbums 0 50 ++ (mkAlbums 50 50 ++ mkAlbums 100 10)) 3
    ∧ (mkAlbums 0 50 ++ (mkAlbums 50 50 ++ mkAlbums 100 10)).length = 110 := by
  constructor
  · have h := C6_theorem
      [⟨some (mkAlbums 0 50), some "tok1"⟩, ⟨some (mkAlbums 50 50), some "tok2"⟩]
      ⟨some (mkAlbums 100 10), none⟩ [] (by simp) (Or.inr rfl)
    simpa [List.append_assoc] using h
  · simp [mkAlbums]

/-- C7: album lookup returns the first album whose title is exactly the
requested title; `_get_album_id` leaves the remote state unchanged when
a matching album exists and creates exactly one album (appended with a
fresh id) when none exists; under sequential calls where the second
call observes the first result, two resolutions of the same absent
title create exactly one album. -/
theorem C7_theorem :
    (∀ (l : List Album) (t : String) (a : Album), get_album l t = some a →
      a.title = t ∧ ∃ l1 l2, l = l1 ++ a :: l2 ∧ ∀ b ∈ l1, b.title ≠ t)
    ∧ (∀ (s : RemoteState) (t : String) (a : Album), a ∈ s.albums → a.title = t →
        (get_album_id s true t).2 = s)
    ∧ (∀ (s : RemoteState) (t : String), (∀ a ∈ s.albums, a.title ≠ t) →
        (get_album_id s true t).2.albums =
          s.albums ++ [⟨"album_" ++ toString s.nextId, t⟩])
    ∧ (∀ (s : RemoteState) (t : String), (∀ a ∈ s.albums, a.title ≠ t) →
        (get_album_id (get_album_id s true t).2 true t).2 = (get_album_id s true t).2
        ∧ ((get_album_id (get_album_id s true t).2 true t).2.albums.countP
            (fun a => a.title == t)) = 1) := by
  have hfirst : ∀ (l : List Album) (t : String) (a : Album), get_album l t = some a →
      a.title = t ∧ ∃ l1 l2, l = l1 ++ a :: l2 ∧ ∀ b ∈ l1, b.title ≠ t := by
    intro l t a
    induction l with
    | nil => simp [get_album]
    | cons b rest ih =>
      intro h
      rcases hb : (t == b.title) with _ | _
      · rw [get_album, if_neg (by simp [hb])] at h
        obtain ⟨ht, l1, l2, hl, hfir⟩ := ih h
        refine ⟨ht, b :: l1, l2, by simp [hl], ?_⟩
        intro c hc
        rcases List.mem_cons.mp hc with hc | hc
        · subst hc
          intro hcon
          rw [hcon] at hb
          simp at hb
        · exact hfir c hc
      · rw [get_album, if_pos hb] at h
        obtain rfl : b = a := by simpa using h
        have ht : b.title = t := by
          have := (beq_iff_eq ..).mp hb
          exact this.symm
        exact ⟨ht, [], rest, by simp, by simp⟩
  have hnocreate : ∀ (s : RemoteState) (t : String) (a : Album), a ∈ s.albums →
      a.title = t → (get_album_id s true t).2 = s := by
    intro s t a ha hat
    cases hga : get_album s.albums t with
    | none =>
      have := (get_album_eq_none_iff s.albums t).mp hga a ha
      exact absurd hat this
    | some x => simp [get_album_id, hga]
  have hcreate : ∀ (s : RemoteState) (t : String), (∀ a ∈ s.albums, a.title ≠ t) →
      (get_album_id s true t).2.albums =
        s.albums ++ [⟨"album_" ++ toString s.nextId, t⟩] := by
    intro s t habs
    have hga := (get_album_eq_none_iff s.albums t).mpr habs
    simp [get_album_id, hga, create_album_remote]
  refine ⟨hfirst, hnocreate, hcreate, ?_⟩
  intro s t habs
  have hga := (get_album_eq_none_iff s.albums t).mpr habs
  have h1 : (get_album_id s true t).2 =
      ⟨s.albums ++ [⟨"album_" ++ toString s.nextId, t⟩], s.nextId + 1⟩ := by
    simp [get_album_id, hga, create_album_remote]
  have hfind : get_album (s.albums ++ [⟨"album_" ++ toString s.nextId, t⟩]) t =
      some ⟨"album_" ++ toString s.nextId, t⟩ :=
    get_album_append_last s.albums _ t habs rfl
  constructor
  · rw [h1]
    simp [get_album_id, hfind]
  · rw [h1]
    simp only [get_album_id, hfind]
    have hz : s.albums.countP (fun a => a.title == t) = 0 :=
      List.countP_eq_zero.mpr (fun a ha => by simp [habs a ha])
    simp [List.countP_append, hz]

theorem C7_witness :
    (get_album_id (get_album_id ⟨[], 0⟩ true "X").2 true "X").2 =
      (get_album_id ⟨[], 0⟩ true "X").2
    ∧ ((get_album_id (get_album_id ⟨[], 0⟩ true "X").2 true "X").2.albums.countP
        (fun a => a.title == "X")) = 1 := by
  exact C7_theorem.2.2.2 ⟨[], 0⟩ "X" (by simp)

/-- C9: when the two remote calls answer on their first attempt (and
the phase-2 result list, when present, is non-empty), `upload_image`
returns `False` without raising in exactly the non-success cases —
missing local file, non-ok phase-1 status code, phase-2 response
lacking the `newMediaItemResults` field — returns `True` only when both
phases complete with the expected fields, and a missing local file
short-circuits before any remote call is made. -/
theorem C9_theorem (fe : Bool) (f1 : Nat → Attempt Phase1Resp)
    (f2 : Nat → Attempt Phase2Resp) (r1 : Phase1Resp) (r2 : Phase2Resp)
    (h1 : f1 0 = .ok r1) (h2 : f2 0 = .ok r2)
    (hne : r2.newMediaItemResults ≠ some []) :
    ((upload_image fe f1 f2).result = .ok false ↔
      (fe = false ∨ r1.status_code ≠ 200 ∨ r2.newMediaItemResults = none))
    ∧ ((upload_image fe f1 f2).result = .ok true ↔
      (fe = true ∧ r1.status_code = 200 ∧
        ∃ l, r2.newMediaItemResults = some l ∧ l ≠ []))
    ∧ (fe = false → (upload_image fe f1 f2).networkCalls = 0) := by
  have e1 := execute_api_first_ok f1 r1 h1
  have e2 := execute_api_first_ok f2 r2 h2
  cases fe
  · simp [upload_image]
  · by_cases hsc : r1.status_code = 200
    · cases hr2 : r2.newMediaItemResults with
      | none => simp [upload_image, e1, e2, hsc, hr2]
      | some l =>
        cases l with
        | nil => exact absurd hr2 hne
        | cons x xs => simp [upload_image, e1, e2, hsc, hr2]
    · simp [upload_image, e1, hsc]

theorem C9_witness :
    (upload_image true (fun _ => Attempt.ok ⟨200, "tok"⟩)
        (fun _ => Attempt.ok ⟨some ["OK"]⟩)).result = .ok true := by
  have h := C9_theorem true (fun _ => Attempt.ok ⟨200, "tok"⟩)
    (fun _ => Attempt.ok ⟨some ["OK"]⟩) ⟨200, "tok"⟩ ⟨some ["OK"]⟩ rfl rfl (by simp)
  exact h.2.1.mpr ⟨rfl, rfl, ["OK"], rfl, by simp⟩

/-- C10: for every 32-bit value `v`, `decode_fourcc v` is exactly a
4-character string whose `i`-th character code equals the `i`-th
least-significant byte of `v`; and decoding the little-endian 4-byte
packing of any 4-character ASCII string returns that original string. -/
theorem C10_theorem (v : Nat) (hv : v < 2 ^ 32) (s : String) (hs : s.length = 4)
    (ha : ∀ c ∈ s.toList, c.toNat < 128) :
    (decode_fourcc v).length = 4
    ∧ (∀ i, i < 4 →
        ((decode_fourcc v).toList.getD i 'A').toNat = v / 2 ^ (8 * i) % 256)
    ∧ decode_fourcc (pack_fourcc s) = s := by
  refine ⟨rfl, ?_, ?_⟩
  · intro i hi
    interval_cases i
    · exact byte_char v (8 * 0)
    · exact byte_char v (8 * 1)
    · exact byte_char v (8 * 2)
    · exact byte_char v (8 * 3)
  · have hlen : s.toList.length = 4 := hs
    obtain ⟨c0, c1, c2, c3, hlist⟩ := exists_four_of_length_eq hlen
    have hdata : s.data = [c0, c1, c2, c3] := hlist
    have h0 : c0.toNat < 128 := ha c0 (by simp [hdata])
    have h1 : c1.toNat < 128 := ha c1 (by simp [hdata])
    have h2 : c2.toNat < 128 := ha c2 (by simp [hdata])
    have h3 : c3.toNat < 128 := ha c3 (by simp [hdata])
    have hp : pack_fourcc s =
        c0.toNat + 256 * c1.toNat + 65536 * c2.toNat + 16777216 * c3.toNat := by
      simp [pack_fourcc, hdata]
    rw [hp]
    have hb0 : ((c0.toNat + 256 * c1.toNat + 65536 * c2.toNat + 16777216 * c3.toNat)
        >>> (8 * 0)) &&& 0xFF = c0.toNat := by
      rw [Nat.shiftRight_eq_div_pow, show (0xFF : Nat) = 2 ^ 8 - 1 from rfl,
        Nat.and_pow_two_sub_one_eq_mod]
      omega
    have hb1 : ((c0.toNat + 256 * c1.toNat + 65536 * c2.toNat + 16777216 * c3.toNat)
        >>> (8 * 1)) &&& 0xFF = c1.toNat := by
      rw [Nat.shiftRight_eq_div_pow, show (0xFF : Nat) = 2 ^ 8 - 1 from rfl,
        Nat.and_pow_two_sub_one_eq_mod]
      omega
    have hb2 : ((c0.toNat + 256 * c1.toNat + 65536 * c2.toNat + 16777216 * c3.toNat)
        >>> (8 * 2)) &&& 0xFF = c2.toNat := by
      rw [Nat.shiftRight_eq_div_pow, show (0xFF : Nat) = 2 ^ 8 - 1 from rfl,
        Nat.and_pow_two_sub_one_eq_mod]
      omega
    have hb3 : ((c0.toNat + 256 * c1.toNat + 65536 * c2.toNat + 16777216 * c3.toNat)
        >>> (8 * 3)) &&& 0xFF = c3.toNat := by
      rw [Nat.shiftRight_eq_div_pow, show (0xFF : Nat) = 2 ^ 8 - 1 from rfl,
        Nat.and_pow_two_sub_one_eq_mod]
      omega
    calc decode_fourcc (c0.toNat + 256 * c1.toNat + 65536 * c2.toNat + 16777216 * c3.toNat)
        = String.mk [
            Char.ofNat (((c0.toNat + 256 * c1.toNat + 65536 * c2.toNat + 16777216 * c3.toNat)
              >>> (8 * 0)) &&& 0xFF),
            Char.ofNat (((c0.toNat + 256 * c1.toNat + 65536 * c2.toNat + 16777216 * c3.toNat)
              >>> (8 * 1)) &&& 0xFF),
            Char.ofNat (((c0.toNat + 256 * c1.toNat + 65536 * c2.toNat + 16777216 * c3.toNat)
              >>> (8 * 2)) &&& 0xFF),
            Char.ofNat (((c0.toNat + 256 * c1.toNat + 65536 * c2.toNat + 16777216 * c3.toNat)
              >>> (8 * 3)) &&& 0xFF)] := rfl
      _ = String.mk [c0, c1, c2, c3] := by
          rw [hb0, hb1, hb2, hb3]
          simp [Char.ofNat_toNat]
      _ = s := by
          rw [← hlist]
          cases s
          rfl

theorem C10_witness :
    (decode_fourcc (pack_fourcc "MJPG")).length = 4
    ∧ decode_fourcc (pack_fourcc "MJPG") = "MJPG" := by
  have h := C10_theorem (pack_fourcc "MJPG") (by decide) "MJPG" rfl (by decide)
  exact ⟨h.1, h.2.2⟩

end GPU
